import Mathlib

/-!
Verification development for the Event-share repository.

This file gives a shallow embedding of the parts of the code that the
specification's testable properties talk about:

* `handleFaceScan` (src/app/view/page.tsx): the batch face filter that walks
  the event's media list, skips videos, classifies each image against the
  reference descriptor with a fixed 0.6 Euclidean-distance threshold, emits
  progress updates, and swallows per-item errors;
* `generateCode` / `createEvent` (src/lib/utils.ts, src/actions/createEvent.ts):
  5-digit event code generation and event document creation;
* the cleanup route (src/app/api/cleanup/route.ts) together with a model of
  Firestore's documented cross-type value ordering;
* the live-camera scan loop of the face modal (FaceFilterModal) with its
  `hasScanned` terminal-state guard;
* `isImageSafe` / `handleFileSelect` (upload page): the fail-open NSFW check.

Browser/SDK effects (image decode, model inference, Firestore lookups) are
modelled as explicit environments: each URL or file is mapped to the outcome
the external world would produce for it, and the embedded functions are the
pure data flow of the source on top of those outcomes.  JS numbers are
modelled as rationals.
-/

namespace EventShare

/-- Model of a face descriptor (a `Float32Array` in the source): a vector of
rationals. -/
abbrev Desc := List ℚ

/-- Head-of-list character matching: `leadMatch pat s` is true when `pat`
occurs at the head of `s` (the character-list core of JS
`String.prototype.startsWith`). -/
def leadMatch : List Char → List Char → Bool
  | [], _ => true
  | _ :: _, [] => false
  | c :: cs, d :: ds => c == d && leadMatch cs ds

/-- Substring occurrence on character lists: `subMatch pat s` is true when
`pat` occurs as a contiguous run somewhere in `s`. -/
def subMatch (pat : List Char) : List Char → Bool
  | [] => leadMatch pat []
  | c :: cs => leadMatch pat (c :: cs) || subMatch pat cs

/-- Model of JS `s.includes(pat)` (substring test), as used by the source for
the `/video/` URL marker. -/
def jsIncludes (s pat : String) : Bool := subMatch pat.toList s.toList

/-- Model of JS `s.startsWith(pat)`, as used by the upload page on MIME
types. -/
def jsStartsWith (s pat : String) : Bool := leadMatch pat.toList s.toList

/-- Outcome the environment produces for one image URL during the batch scan:
either the decode / detection step throws (`err`, caught by the per-item
`try`/`catch` in `handleFaceScan`), or detection yields the list of face
descriptors found in that image. -/
inductive ImageOutcome where
  | err
  | faces (ds : List Desc)

/-- Environment of one `handleFaceScan` run: the reference descriptor handed
over by the face modal, whether backend setup and the three
`loadFromUri('/models')` calls succeed, and the per-URL decode/detection
outcome. -/
structure ScanEnv where
  ref : Desc
  modelsOk : Bool
  outcome : String → ImageOutcome

/-- Sum of squared coordinate differences of two descriptors.  face-api's
`euclideanDistance` is the square root of this quantity. -/
def sumSqDiff (a b : Desc) : ℚ :=
  (List.zipWith (fun x y => (x - y) ^ 2) a b).sum

/-- The source's per-face test `faceapi.euclideanDistance(d, ref) < 0.6`.
Since the Euclidean distance is the square root of `sumSqDiff` and square
root is monotone, the comparison is computed on squares: `√q < 0.6` iff
`q < 0.6 ^ 2` (proved as `closeFace_iff_sqrt` below). -/
def closeFace (d ref : Desc) : Bool :=
  decide (sumSqDiff d ref < (6 / 10 : ℚ) ^ 2)

/-- The source's `detections.some (d => euclideanDistance (d.descriptor, userDescriptor) < 0.6)`:
any detected face close to the reference marks the whole image as a match. -/
def imageMatches (ref : Desc) (ds : List Desc) : Bool :=
  ds.any fun d => closeFace d ref

/-- Whether one item of the media list ends up pushed onto `matches` in the
loop of `handleFaceScan`: videos are skipped unconditionally, a thrown
decode/detection error is caught and treated as no match, and otherwise the
image matches when some detected face is within the threshold. -/
def itemMatch (env : ScanEnv) (u : String) : Bool :=
  if jsIncludes u "/video/" then false
  else
    match env.outcome u with
    | .err => false
    | .faces ds => imageMatches env.ref ds

/-- The `for (let i = 0; i < total; i++)` loop of `handleFaceScan`: returns
the accumulated `matches` list and the sequence of `setFilterProgress`
values, one `((i + 1) / total) * 100` update per item (also for videos and
for items whose processing threw). -/
def scanItems (env : ScanEnv) : List String → Nat → Nat → List String × List ℚ
  | [], _, _ => ([], [])
  | u :: rest, i, total =>
    let p : ℚ := (((i : ℚ) + 1) / (total : ℚ)) * 100
    let r := scanItems env rest (i + 1) total
    (if itemMatch env u then u :: r.1 else r.1, p :: r.2)

/-- Observable result of one `handleFaceScan` run: the argument of
`setMedia` / `setFilteredCount` if those calls are reached, every
`setFilterProgress` value in order (including the initial
`setFilterProgress(0)`), the argument of `setError` if the outer `catch`
runs, and the final `isFiltering` flag set by `finally`. -/
structure ScanResult where
  mediaSet : Option (List String)
  filteredCount : Option Nat
  progress : List ℚ
  errorMsg : Option String
  isFiltering : Bool

/-- Embedding of `handleFaceScan` (src/app/view/page.tsx).  If backend setup
or any of the three model loads fails, the outer `catch` sets the error and
no per-item processing happens; otherwise the loop runs over the whole media
list and `setMedia(matches)` / `setFilteredCount(matches.length)` are
called. -/
def handleFaceScan (env : ScanEnv) (allMedia : List String) : ScanResult :=
  if env.modelsOk then
    let r := scanItems env allMedia 0 allMedia.length
    { mediaSet := some r.1
      filteredCount := some r.1.length
      progress := 0 :: r.2
      errorMsg := none
      isFiltering := false }
  else
    { mediaSet := none
      filteredCount := none
      progress := [0]
      errorMsg := some "Failed to filter photos."
      isFiltering := false }

/-- The matches accumulated by the scan loop are exactly the input list
filtered by the per-item classification. -/
theorem scanItems_fst (env : ScanEnv) :
    ∀ (l : List String) (i total : Nat),
      (scanItems env l i total).1 = l.filter (itemMatch env)
  | [], _, _ => rfl
  | u :: rest, i, total => by
    simp only [scanItems, List.filter_cons, scanItems_fst env rest (i + 1) total]

/-- The progress values emitted by the scan loop starting at index `i` are
`((i + k + 1) / total) * 100` for `k = 0 .. l.length - 1`. -/
theorem scanItems_snd (env : ScanEnv) :
    ∀ (l : List String) (i total : Nat),
      (scanItems env l i total).2 =
        (List.range l.length).map
          fun k => ((((i + k : ℕ) : ℚ) + 1) / (total : ℚ)) * 100
  | [], _, _ => rfl
  | u :: rest, i, total => by
    simp only [scanItems, List.length_cons, List.range_succ_eq_map, List.map_cons,
      List.map_map, scanItems_snd env rest (i + 1) total]
    congr 1
    apply List.map_congr_left
    intro k _
    simp only [Function.comp_apply]
    push_cast
    ring

/-- Valuewise form of the progress list of a successful `handleFaceScan` run:
the initial `setFilterProgress(0)` followed by `((i + 1) / total) * 100` for
each item index `i`. -/
theorem handleFaceScan_progress (env : ScanEnv) (L : List String)
    (hm : env.modelsOk = true) :
    (handleFaceScan env L).progress =
      0 :: (List.range L.length).map
        fun i : ℕ => (((i : ℚ) + 1) / (L.length : ℚ)) * 100 := by
  simp only [handleFaceScan, hm, if_true]
  rw [scanItems_snd]
  congr 1
  apply List.map_congr_left
  intro k _
  norm_num

/-- Monotonicity of the progress formula in the item index (also for an
empty list, where division by zero makes every term 0). -/
theorem progressTerm_le (N i j : ℕ) (hij : i ≤ j) :
    (((i : ℚ) + 1) / (N : ℚ)) * 100 ≤ (((j : ℚ) + 1) / (N : ℚ)) * 100 := by
  rcases Nat.eq_zero_or_pos N with h | h
  · subst h
    simp
  · have hN : (0 : ℚ) < N := by exact_mod_cast h
    have hij' : ((i : ℚ) + 1) ≤ (j : ℚ) + 1 := by
      have : (i : ℚ) ≤ j := by exact_mod_cast hij
      linarith
    have := (div_le_div_iff_of_pos_right hN).mpr hij'
    exact mul_le_mul_of_nonneg_right this (by norm_num)

/-- C1: for every media URL list `L` and reference descriptor, the batch
filter `handleFaceScan` produces a matched list that is a sublist of `L`
(hence a subset of `L` preserving `L`'s relative order). -/
theorem C1_matched_sublist (env : ScanEnv) (L M : List String)
    (h : (handleFaceScan env L).mediaSet = some M) :
    M.Sublist L ∧ ∀ u ∈ M, u ∈ L := by
  by_cases hm : env.modelsOk = true
  · have hM : M = L.filter (itemMatch env) := by
      rw [handleFaceScan] at h
      simp only [hm, if_true, scanItems_fst, Option.some.injEq] at h
      exact h.symm
    subst hM
    exact ⟨List.filter_sublist L, fun u hu => (List.mem_filter.mp hu).1⟩
  · rw [handleFaceScan] at h
    simp [hm] at h

/-- Demo reference descriptor for concrete witnesses. -/
def demoRef : Desc := [0, 0]

/-- Demo environment for concrete witnesses: models are loaded, one image
contains a face close to the reference, one a far one, one URL throws during
processing, anything else has no detected faces. -/
def demoEnv : ScanEnv where
  ref := demoRef
  modelsOk := true
  outcome := fun u =>
    if u = "https://h/a.jpg" then .faces [[0, 1 / 10]]
    else if u = "https://h/b.jpg" then .faces [[2, 0]]
    else if u = "https://h/bad.jpg" then .err
    else .faces []

/-- Demo media list for concrete witnesses: a matching image, a video, an
image whose processing throws, and a non-matching image. -/
def demoList : List String :=
  ["https://h/a.jpg", "https://h/video/v.mp4", "https://h/bad.jpg", "https://h/b.jpg"]

/-- Environment whose model initialization fails, for the C4 witness. -/
def failEnv : ScanEnv where
  ref := demoRef
  modelsOk := false
  outcome := fun _ => .faces []

/-- Witness for C1 on the demo event: the matched list is `[a.jpg]`, a
sublist of the demo media list. -/
theorem C1_witness :
    List.Sublist ["https://h/a.jpg"] demoList ∧
      ∀ u ∈ ["https://h/a.jpg"], u ∈ demoList :=
  C1_matched_sublist demoEnv demoList ["https://h/a.jpg"] (by with_unfolding_all decide)

/-- C2: a URL carrying the `/video/` marker is never in the matched result,
and every item of the list (videos included) emits one progress update. -/
theorem C2_videos_never_matched (env : ScanEnv) (L : List String) (u : String)
    (hm : env.modelsOk = true) (hv : jsIncludes u "/video/" = true) :
    (∀ M, (handleFaceScan env L).mediaSet = some M → u ∉ M) ∧
      (handleFaceScan env L).progress.length = L.length + 1 := by
  constructor
  · intro M hM
    have hM' : M = L.filter (itemMatch env) := by
      rw [handleFaceScan] at hM
      simp only [hm, if_true, scanItems_fst, Option.some.injEq] at hM
      exact hM.symm
    subst hM'
    intro hmem
    have hmatch := (List.mem_filter.mp hmem).2
    rw [itemMatch, hv] at hmatch
    simp at hmatch
  · rw [handleFaceScan_progress env L hm]
    simp

/-- Witness for C2 at the demo video URL. -/
theorem C2_witness :
    (∀ M, (handleFaceScan demoEnv demoList).mediaSet = some M →
        "https://h/video/v.mp4" ∉ M) ∧
      (handleFaceScan demoEnv demoList).progress.length = demoList.length + 1 :=
  C2_videos_never_matched demoEnv demoList "https://h/video/v.mp4" rfl (by decide)

/-- C3: during a successful run over `N` items, the update emitted after
item `i` is `((i + 1) / N) * 100`, the emitted sequence (starting at the
initial 0) is non-decreasing, the final value is exactly 100 for a non-empty
list, and the empty list completes immediately with an empty match set. -/
theorem C3_progress_profile (env : ScanEnv) (L : List String)
    (hm : env.modelsOk = true) :
    (∀ i, i < L.length →
        (handleFaceScan env L).progress[i + 1]? =
          some ((((i : ℚ) + 1) / (L.length : ℚ)) * 100)) ∧
      (handleFaceScan env L).progress.Pairwise (· ≤ ·) ∧
      (L ≠ [] → (handleFaceScan env L).progress.getLast? = some 100) ∧
      (L = [] →
        (handleFaceScan env L).mediaSet = some [] ∧
          (handleFaceScan env L).progress = [0]) := by
  have hp := handleFaceScan_progress env L hm
  refine ⟨?_, ?_, ?_, ?_⟩
  · intro i hi
    rw [hp]
    simp [List.getElem?_range, hi]
  · rw [hp]
    rw [List.pairwise_cons]
    constructor
    · intro a ha
      rw [List.mem_map] at ha
      obtain ⟨k, -, rfl⟩ := ha
      positivity
    · rw [List.pairwise_map, List.range_eq_range']
      exact (List.pairwise_lt_range' 0 L.length).imp
        fun hab => progressTerm_le L.length _ _ (Nat.le_of_lt hab)
  · intro hL
    obtain ⟨m, hm'⟩ : ∃ m, L.length = m + 1 :=
      ⟨L.length - 1, (Nat.succ_pred_eq_of_pos (List.length_pos.mpr hL)).symm⟩
    rw [hp, hm', List.range_succ, List.map_append, List.map_cons, List.map_nil,
      ← List.cons_append, List.getLast?_concat]
    have : (((m : ℚ) + 1) / ((m : ℚ) + 1)) * 100 = 100 := by
      rw [div_self (by positivity), one_mul]
    rw [show ((m + 1 : ℕ) : ℚ) = (m : ℚ) + 1 by push_cast; ring, this]
  · rintro rfl
    rw [handleFaceScan]
    simp [hm, scanItems]

/-- Witness for C3 on the demo event. -/
theorem C3_witness :
    (∀ i, i < demoList.length →
        (handleFaceScan demoEnv demoList).progress[i + 1]? =
          some ((((i : ℚ) + 1) / (demoList.length : ℚ)) * 100)) ∧
      (handleFaceScan demoEnv demoList).progress.Pairwise (· ≤ ·) ∧
      (demoList ≠ [] →
        (handleFaceScan demoEnv demoList).progress.getLast? = some 100) ∧
      (demoList = [] →
        (handleFaceScan demoEnv demoList).mediaSet = some [] ∧
          (handleFaceScan demoEnv demoList).progress = [0]) :=
  C3_progress_profile demoEnv demoList rfl

/-- C4: if model initialization fails, the run fails with the error message,
no per-item processing occurs, no match result is produced, and the only
progress report is the initial 0. -/
theorem C4_model_load_failure (env : ScanEnv) (L : List String)
    (hm : env.modelsOk = false) :
    (handleFaceScan env L).errorMsg = some "Failed to filter photos." ∧
      (handleFaceScan env L).mediaSet = none ∧
      (handleFaceScan env L).filteredCount = none ∧
      (handleFaceScan env L).progress = [0] := by
  rw [handleFaceScan]
  simp [hm]

/-- Witness for C4 with the failing-model environment. -/
theorem C4_witness :
    (handleFaceScan failEnv demoList).errorMsg = some "Failed to filter photos." ∧
      (handleFaceScan failEnv demoList).mediaSet = none ∧
      (handleFaceScan failEnv demoList).filteredCount = none ∧
      (handleFaceScan failEnv demoList).progress = [0] :=
  C4_model_load_failure failEnv demoList rfl

/-- C5: an item whose decode or detection throws is treated as a non-match,
still emits its progress update, and the rest of the batch is processed
normally — a single failing item never aborts the batch. -/
theorem C5_item_error_swallowed (env : ScanEnv) (pre post : List String)
    (u : String) (hm : env.modelsOk = true) (hu : env.outcome u = .err)
    (hv : jsIncludes u "/video/" = false) :
    (handleFaceScan env (pre ++ u :: post)).mediaSet =
        some (pre.filter (itemMatch env) ++ post.filter (itemMatch env)) ∧
      (handleFaceScan env (pre ++ u :: post)).progress.length =
        (pre ++ u :: post).length + 1 := by
  have hmatch : itemMatch env u = false := by
    rw [itemMatch, hv]
    simp [hu]
  constructor
  · rw [handleFaceScan]
    simp [hm, scanItems_fst, List.filter_append, List.filter_cons, hmatch]
  · rw [handleFaceScan_progress env _ hm]
    simp

/-- Witness for C5 at the demo URL whose processing throws. -/
theorem C5_witness :
    (handleFaceScan demoEnv
          (["https://h/a.jpg"] ++ "https://h/bad.jpg" :: ["https://h/b.jpg"])).mediaSet =
        some ((["https://h/a.jpg"].filter (itemMatch demoEnv)) ++
          (["https://h/b.jpg"].filter (itemMatch demoEnv))) ∧
      (handleFaceScan demoEnv
          (["https://h/a.jpg"] ++ "https://h/bad.jpg" :: ["https://h/b.jpg"])).progress.length =
        (["https://h/a.jpg"] ++ "https://h/bad.jpg" :: ["https://h/b.jpg"]).length + 1 :=
  C5_item_error_swallowed demoEnv ["https://h/a.jpg"] ["https://h/b.jpg"]
    "https://h/bad.jpg" rfl rfl (by decide)

/-- The boolean per-face test of the source decides exactly the strict
Euclidean-distance comparison against 0.6: the distance is the square root
of the sum of squared differences, and square root is monotone. -/
theorem closeFace_iff_sqrt (d ref : Desc) :
    closeFace d ref = true ↔
      Real.sqrt ((sumSqDiff d ref : ℚ) : ℝ) < 6 / 10 := by
  rw [closeFace, decide_eq_true_iff,
    Real.sqrt_lt' (by norm_num : (0 : ℝ) < 6 / 10),
    show ((6 : ℝ) / 10) ^ 2 = (((6 / 10 : ℚ) ^ 2 : ℚ) : ℝ) by push_cast; ring]
  exact ⟨fun h => by exact_mod_cast h, fun h => by exact_mod_cast h⟩

/-- C6: an image item is classified as a match iff at least one face
detected in it has Euclidean distance to the reference descriptor strictly
below 0.6; accordingly it appears in the batch result iff it occurs in the
input list and has such a face. -/
theorem C6_match_iff_close_face (env : ScanEnv) (L : List String) (u : String)
    (ds : List Desc) (hv : jsIncludes u "/video/" = false)
    (hd : env.outcome u = .faces ds) :
    (itemMatch env u = true ↔
        ∃ d ∈ ds, Real.sqrt ((sumSqDiff d env.ref : ℚ) : ℝ) < 6 / 10) ∧
      ∀ M, (handleFaceScan env L).mediaSet = some M →
        (u ∈ M ↔ u ∈ L ∧
          ∃ d ∈ ds, Real.sqrt ((sumSqDiff d env.ref : ℚ) : ℝ) < 6 / 10) := by
  have hiff : itemMatch env u = true ↔
      ∃ d ∈ ds, Real.sqrt ((sumSqDiff d env.ref : ℚ) : ℝ) < 6 / 10 := by
    rw [itemMatch, hv]
    simp only [Bool.false_eq_true, if_false, hd, imageMatches, List.any_eq_true]
    exact exists_congr fun d =>
      and_congr_right fun _ => closeFace_iff_sqrt d env.ref
  refine ⟨hiff, fun M hM => ?_⟩
  by_cases hm : env.modelsOk = true
  · have hM' : M = L.filter (itemMatch env) := by
      rw [handleFaceScan] at hM
      simp only [hm, if_true, scanItems_fst, Option.some.injEq] at hM
      exact hM.symm
    subst hM'
    rw [List.mem_filter, hiff]
  · rw [handleFaceScan] at hM
    simp [hm] at hM

/-- Witness for C6 at the demo matching image. -/
theorem C6_witness :
    (itemMatch demoEnv "https://h/a.jpg" = true ↔
        ∃ d ∈ [[(0 : ℚ), 1 / 10]],
          Real.sqrt ((sumSqDiff d demoEnv.ref : ℚ) : ℝ) < 6 / 10) ∧
      ∀ M, (handleFaceScan demoEnv demoList).mediaSet = some M →
        ("https://h/a.jpg" ∈ M ↔ "https://h/a.jpg" ∈ demoList ∧
          ∃ d ∈ [[(0 : ℚ), 1 / 10]],
            Real.sqrt ((sumSqDiff d demoEnv.ref : ℚ) : ℝ) < 6 / 10) :=
  C6_match_iff_close_face demoEnv demoList "https://h/a.jpg"
    [[(0 : ℚ), 1 / 10]] (by decide) rfl

/-- Fuel-indexed decimal digit expansion, most significant digit first.  The
fuel only bounds the recursion depth; `decDigits` below supplies enough fuel
for any input. -/
def decDigitsAux : Nat → Nat → List Nat
  | 0, _ => []
  | fuel + 1, n => if n < 10 then [n] else decDigitsAux fuel (n / 10) ++ [n % 10]

/-- Decimal digits of a natural number, most significant first. -/
def decDigits (n : Nat) : List Nat := decDigitsAux (n + 1) n

/-- ASCII character of one decimal digit. -/
def decChar (d : Nat) : Char := Char.ofNat (48 + d)

/-- Model of JS `Number.prototype.toString` on nonnegative integers: the
usual base-10 digit string. -/
def natToString (n : Nat) : String := List.asString ((decDigits n).map decChar)

/-- Embedding of `generateCode` (src/lib/utils.ts):
`Math.floor(10000 + Math.random() * 90000).toString()`, where `r` models the
value returned by `Math.random()` (which lies in `[0,1)` by its contract). -/
def generateCode (r : ℚ) : String :=
  natToString (Int.toNat ⌊(10000 : ℚ) + r * 90000⌋)

/-- Embedding of `addHoursToNow` (src/lib/utils.ts): JS `Date` hour
arithmetic (`setHours(getHours() + hours)`), on a clock measured in hours
since the epoch. -/
def addHoursToNow (now : ℚ) (hours : ℚ) : ℚ := now + hours

/-- Firestore field values that occur in this system: `Timestamp`s (stored
by `createEvent`, as an epoch-millisecond rational) and text strings (the
ISO string the cleanup route queries with). -/
inductive FireVal where
  | ts (t : ℚ)
  | str (s : String)
  deriving DecidableEq

/-- Modelled from the Firestore data-type documentation: in the total value
order used by queries, timestamp values sort before text strings, and values
of the same type compare by their natural order.  A range filter such as
`where('expiresAt', '<', v)` selects the documents whose field value is
below `v` in this order. -/
def FireVal.fireLt : FireVal → FireVal → Bool
  | .ts a, .ts b => decide (a < b)
  | .ts _, .str _ => true
  | .str _, .ts _ => false
  | .str a, .str b => decide (a < b)

/-- Stricter alternative reading of Firestore range filters: a value of a
different type than the filter operand never satisfies the filter. -/
def FireVal.sameTypeLt : FireVal → FireVal → Bool
  | .ts a, .ts b => decide (a < b)
  | .str a, .str b => decide (a < b)
  | _, _ => false

/-- An `events` document as written by `createEvent`. -/
structure EventDoc where
  urls : List String
  expiresAt : FireVal
  createdAt : FireVal
  deriving DecidableEq

/-- The `events` collection: document id paired with document. -/
abbrev EventStore := List (String × EventDoc)

/-- Firestore `docRef.set(...)`: create or overwrite the document at `id`. -/
def setDoc (store : EventStore) (id : String) (d : EventDoc) : EventStore :=
  (id, d) :: store.filter fun p => !(p.1 == id)

/-- Embedding of `createEvent` (src/actions/createEvent.ts): generate a code
from the pseudo-random value `r`, compute `expiresAt` with `addHoursToNow`,
and `set` the document keyed by the code — overwriting whatever was there,
with no uniqueness check against the existing store. -/
def createEvent (store : EventStore) (r : ℚ) (files : List String)
    (now : ℚ) (durationHours : ℚ) : String × EventStore :=
  let code := generateCode r
  let expiresAt := addHoursToNow now durationHours
  (code, setDoc store code
    { urls := files, expiresAt := .ts expiresAt, createdAt := .ts now })

/-- Embedding of the cleanup route `GET` (src/app/api/cleanup/route.ts):
query `events` with `where('expiresAt', '<', new Date().toISOString())` —
the operand is a STRING — and delete every matching document; returns the
remaining store and the reported `deleted` count. -/
def cleanupGET (store : EventStore) (nowIso : String) : EventStore × Nat :=
  let deleted := store.filter fun p => p.2.expiresAt.fireLt (.str nowIso)
  (store.filter fun p => !(p.2.expiresAt.fireLt (.str nowIso)), deleted.length)

/-- Every digit produced by the fuel-indexed expansion is below 10. -/
theorem decDigitsAux_lt10 :
    ∀ (fuel n : Nat), ∀ d ∈ decDigitsAux fuel n, d < 10 := by
  intro fuel
  induction fuel with
  | zero =>
    intro n d hd
    simp [decDigitsAux] at hd
  | succ f ih =>
    intro n d hd
    rw [decDigitsAux] at hd
    split at hd
    · simp only [List.mem_singleton] at hd
      omega
    · rw [List.mem_append, List.mem_singleton] at hd
      rcases hd with hd | hd
      · exact ih (n / 10) d hd
      · subst hd
        exact Nat.mod_lt _ (by omega)

/-- Every digit of a decimal expansion is below 10. -/
theorem decDigits_lt10 (n : Nat) : ∀ d ∈ decDigits n, d < 10 :=
  decDigitsAux_lt10 (n + 1) n

/-- With enough fuel, a number in `[10^k, 10^(k+1))` expands to exactly
`k + 1` digits. -/
theorem decDigitsAux_length :
    ∀ (k fuel n : Nat), n < fuel → 10 ^ k ≤ n → n < 10 ^ (k + 1) →
      (decDigitsAux fuel n).length = k + 1 := by
  intro k
  induction k with
  | zero =>
    intro fuel n hf h1 h2
    match fuel, hf with
    | f + 1, _ =>
      rw [decDigitsAux, if_pos (by simpa using h2)]
      rfl
  | succ k ih =>
    intro fuel n hf h1 h2
    have h10 : 10 ≤ n := by
      calc (10 : ℕ) = 10 ^ 1 := (pow_one 10).symm
      _ ≤ 10 ^ (k + 1) := Nat.pow_le_pow_right (by omega) (by omega)
      _ ≤ n := h1
    match fuel, hf with
    | f + 1, hf =>
      rw [decDigitsAux, if_neg (by omega), List.length_append]
      have hd1 : 10 ^ k ≤ n / 10 := by
        rw [Nat.le_div_iff_mul_le (by omega)]
        calc 10 ^ k * 10 = 10 ^ (k + 1) := by ring
        _ ≤ n := h1
      have hd2 : n / 10 < 10 ^ (k + 1) := by
        rw [Nat.div_lt_iff_lt_mul (by omega)]
        calc n < 10 ^ (k + 1 + 1) := h2
        _ = 10 ^ (k + 1) * 10 := by ring
      have hfd : n / 10 < f := by
        have := Nat.div_lt_self (show 0 < n by omega) (show 1 < 10 by omega)
        omega
      rw [ih f (n / 10) hfd hd1 hd2]
      rfl

/-- A number in `[10^k, 10^(k+1))` has exactly `k + 1` decimal digits. -/
theorem decDigits_length (k n : Nat) (h1 : 10 ^ k ≤ n) (h2 : n < 10 ^ (k + 1)) :
    (decDigits n).length = k + 1 :=
  decDigitsAux_length k (n + 1) n (Nat.lt_succ_self n) h1 h2

/-- The character of a decimal digit is an ASCII digit. -/
theorem decChar_isDigit (d : Nat) (hd : d < 10) : (decChar d).isDigit = true := by
  interval_cases d <;> decide

/-- C7: for every pseudo-random value `r` in `[0,1)`, the generated code's
integer value lies in `10000 .. 99999`, the code is a string of exactly 5
ASCII digits, and `createEvent` derives the code independently of the
existing event store — no uniqueness check is performed. -/
theorem C7_generateCode (r : ℚ) (h0 : 0 ≤ r) (h1 : r < 1) :
    10000 ≤ Int.toNat ⌊(10000 : ℚ) + r * 90000⌋ ∧
      Int.toNat ⌊(10000 : ℚ) + r * 90000⌋ ≤ 99999 ∧
      (generateCode r).length = 5 ∧
      (∀ c ∈ (generateCode r).toList, c.isDigit = true) ∧
      ∀ (store store' : EventStore) (files files' : List String)
        (now now' dur dur' : ℚ),
        (createEvent store r files now dur).1 =
          (createEvent store' r files' now' dur').1 := by
  have hfl : (10000 : ℤ) ≤ ⌊(10000 : ℚ) + r * 90000⌋ := by
    rw [Int.le_floor]
    push_cast
    nlinarith
  have hfu : ⌊(10000 : ℚ) + r * 90000⌋ < 100000 := by
    rw [Int.floor_lt]
    push_cast
    nlinarith
  have hn1 : 10000 ≤ Int.toNat ⌊(10000 : ℚ) + r * 90000⌋ := by omega
  have hn2 : Int.toNat ⌊(10000 : ℚ) + r * 90000⌋ < 100000 := by omega
  refine ⟨hn1, by omega, ?_, ?_, fun _ _ _ _ _ _ _ _ => rfl⟩
  · show (natToString (Int.toNat ⌊(10000 : ℚ) + r * 90000⌋)).length = 5
    rw [show (natToString (Int.toNat ⌊(10000 : ℚ) + r * 90000⌋)).length =
        ((decDigits (Int.toNat ⌊(10000 : ℚ) + r * 90000⌋)).map decChar).length from rfl,
      List.length_map]
    refine decDigits_length 4 _ ?_ ?_
    · rw [show (10 : ℕ) ^ 4 = 10000 by norm_num]
      exact hn1
    · rw [show (10 : ℕ) ^ (4 + 1) = 100000 by norm_num]
      exact hn2
  · intro c hc
    rw [show (generateCode r).toList =
        (decDigits (Int.toNat ⌊(10000 : ℚ) + r * 90000⌋)).map decChar from rfl,
      List.mem_map] at hc
    obtain ⟨d, hd, rfl⟩ := hc
    exact decChar_isDigit d (decDigits_lt10 _ d hd)

/-- Witness for C7 at `r = 1/2` (code value 55000). -/
theorem C7_witness :
    10000 ≤ Int.toNat ⌊(10000 : ℚ) + (1 / 2 : ℚ) * 90000⌋ ∧
      Int.toNat ⌊(10000 : ℚ) + (1 / 2 : ℚ) * 90000⌋ ≤ 99999 ∧
      (generateCode (1 / 2)).length = 5 ∧
      (∀ c ∈ (generateCode (1 / 2)).toList, c.isDigit = true) ∧
      ∀ (store store' : EventStore) (files files' : List String)
        (now now' dur dur' : ℚ),
        (createEvent store (1 / 2) files now dur).1 =
          (createEvent store' (1 / 2) files' now' dur').1 :=
  C7_generateCode (1 / 2) (by with_unfolding_all decide) (by with_unfolding_all decide)

/-- C8 (code bug): the cleanup sweep does NOT delete exactly the expired
events.  `createEvent` stores `expiresAt` as a Firestore `Timestamp`, while
the sweep filters with `where('expiresAt', '<', isoString)`.  In Firestore's
documented cross-type order every timestamp sorts before every string, so
the filter matches every event — here an event created at epoch 0 with a
6-hour lifetime (expiresAt = hour 6, in the future of the sweep at hour 0)
is deleted; and under the stricter same-type-only reading of range filters the
sweep would instead match nothing, so even expired timestamps would never be
deleted.  Either way the claimed exactness fails. -/
theorem C8_cleanup_not_exact :
    (∀ (t : ℚ) (s : String), FireVal.fireLt (.ts t) (.str s) = true) ∧
      (∀ p ∈ (createEvent [] 0 ["https://h/a.jpg"] 0 6).2,
        p.2.expiresAt = FireVal.ts 6) ∧
      (cleanupGET (createEvent [] 0 ["https://h/a.jpg"] 0 6).2
          "1970-01-01T00:00:00.000Z").2 = 1 ∧
      (cleanupGET (createEvent [] 0 ["https://h/a.jpg"] 0 6).2
          "1970-01-01T00:00:00.000Z").1 = [] ∧
      ∀ (t : ℚ) (s : String), FireVal.sameTypeLt (.ts t) (.str s) = false := by
  refine ⟨fun t s => rfl, ?_, ?_, ?_, fun t s => rfl⟩ <;> with_unfolding_all decide

/-- Outcome of one animation-frame callback of the face modal's polling
loop: the video element is gone, detection threw (caught and swallowed),
no face was found in the frame, or a face was detected with the given
descriptor. -/
inductive Frame where
  | gone
  | err
  | noFace
  | face (d : Desc)

/-- Per-session mutable state of the face modal's polling loop: the `running`
closure flag (cleared when the effect is torn down) and the `hasScanned`
ref that guards the terminal state. -/
structure CamState where
  running : Bool
  hasScanned : Bool
  deriving DecidableEq

/-- One execution of `detectAndScan` (FaceFilterModal): early-return when the
video element is missing, the loop was torn down, or a scan already
happened; otherwise a successful detection trips the `hasScanned` guard and
fires `onScan` with the descriptor; errors and empty frames change
nothing. -/
def detectStep (st : CamState) (f : Frame) : CamState × Option Desc :=
  if !st.running || st.hasScanned then (st, none)
  else
    match f with
    | .gone => (st, none)
    | .err => (st, none)
    | .noFace => (st, none)
    | .face d => ({ st with hasScanned := true }, some d)

/-- All polling iterations of one modal session over the sequence of frame
outcomes, collecting every descriptor passed to `onScan`. -/
def runFrames (st : CamState) : List Frame → CamState × List Desc
  | [] => (st, [])
  | f :: fs =>
    let r := detectStep st f
    let rest := runFrames r.1 fs
    (rest.1, r.2.toList ++ rest.2)

/-- Descriptor of the first frame containing a detected face, if any. -/
def firstFace : List Frame → Option Desc
  | [] => none
  | .face d :: _ => some d
  | .gone :: fs => firstFace fs
  | .err :: fs => firstFace fs
  | .noFace :: fs => firstFace fs

/-- Once `hasScanned` is set, no later frame fires the callback. -/
theorem runFrames_scanned (r : Bool) :
    ∀ fs, (runFrames ⟨r, true⟩ fs).2 = []
  | [] => rfl
  | f :: fs => by
    simp only [runFrames, detectStep, Bool.or_true, if_true, Option.toList_none,
      List.nil_append]
    exact runFrames_scanned r fs

/-- In a freshly opened session the fired callbacks are exactly the first
detected face. -/
theorem runFrames_open :
    ∀ fs, (runFrames ⟨true, false⟩ fs).2 = (firstFace fs).toList
  | [] => rfl
  | .gone :: fs => by
    simpa [runFrames, detectStep, firstFace] using runFrames_open fs
  | .err :: fs => by
    simpa [runFrames, detectStep, firstFace] using runFrames_open fs
  | .noFace :: fs => by
    simpa [runFrames, detectStep, firstFace] using runFrames_open fs
  | .face d :: fs => by
    simp [runFrames, detectStep, firstFace, runFrames_scanned]

/-- C9: across all polling iterations of one modal session (initial state:
running, not yet scanned), the `onScan` callback fires exactly at the first
successful face detection and never again — the fired-callback sequence
equals the optional first detected face, so the terminal state is entered
at most once. -/
theorem C9_scan_fires_once (fs : List Frame) :
    (runFrames ⟨true, false⟩ fs).2 = (firstFace fs).toList ∧
      (runFrames ⟨true, false⟩ fs).2.length ≤ 1 := by
  refine ⟨runFrames_open fs, ?_⟩
  rw [runFrames_open fs]
  cases firstFace fs <;> simp

/-- Result of running the NSFW classifier on one image: the call throws
(caught, treated as safe) or returns a list of (className, probability)
predictions. -/
inductive ClassifyOutcome where
  | throws
  | preds (ps : List (String × ℚ))

/-- Environment for one selected file: its MIME type (`file.type`), whether
the object-URL image loads (`onload` vs `onerror`), and what the classifier
returns for it. -/
structure FileEnv where
  mime : String
  imgLoad : Bool
  classify : ClassifyOutcome

/-- The flagged NSFW categories of the upload page. -/
def flaggedCats : List String := ["Porn", "Hentai", "Sexy", "Violence", "Graphic"]

/-- Embedding of `isImageSafe` (upload page): resolves `true` when the model
has not loaded, the file is not an image, the image fails to load, or
classification throws; otherwise the file is unsafe exactly when some
prediction puts probability above 0.55 on a flagged category. -/
def isImageSafe (modelReady : Bool) (f : FileEnv) : Bool :=
  if !modelReady then true
  else if !(jsStartsWith f.mime "image/") then true
  else if !f.imgLoad then true
  else
    match f.classify with
    | .throws => true
    | .preds ps =>
      !(ps.any fun p => flaggedCats.contains p.1 && decide ((11 / 20 : ℚ) < p.2))

/-- Embedding of `handleFileSelect` (upload page): the selection is accepted
(`setFiles` reached) exactly when every chosen file passes `isImageSafe`;
the first failing file aborts the selection. -/
def handleFileSelect (modelReady : Bool) (files : List FileEnv) : Bool :=
  files.all (isImageSafe modelReady)

/-- C10: the NSFW safety check is fail-open — a file is blocked iff the
model is loaded, the file is an image by MIME type, the image decodes, the
classifier returns predictions, and one of them puts probability above 0.55
on a flagged category; in every other situation `isImageSafe` returns
`true`, and the file selection goes through iff every file passes. -/
theorem C10_nsfw_fail_open :
    (∀ (ready : Bool) (f : FileEnv),
      isImageSafe ready f = false ↔
        ready = true ∧ jsStartsWith f.mime "image/" = true ∧ f.imgLoad = true ∧
          ∃ ps, f.classify = .preds ps ∧
            ∃ p ∈ ps, p.1 ∈ flaggedCats ∧ (11 / 20 : ℚ) < p.2) ∧
      ∀ (ready : Bool) (files : List FileEnv),
        handleFileSelect ready files = true ↔
          ∀ f ∈ files, isImageSafe ready f = true := by
  constructor
  · intro ready f
    cases ready with
    | false => simp [isImageSafe]
    | true =>
      cases himg : jsStartsWith f.mime "image/" with
      | false => simp [isImageSafe, himg]
      | true =>
        cases hL : f.imgLoad with
        | false => simp [isImageSafe, himg, hL]
        | true =>
          cases hc : f.classify with
          | throws => simp [isImageSafe, himg, hL, hc]
          | preds ps =>
            simp [isImageSafe, himg, hL, hc, List.any_eq_true, ClassifyOutcome.preds.injEq]
  · intro ready files
    simp [handleFileSelect, List.all_eq_true]

end EventShare
